import Mathlib

/-!
Verification of the `mpl-special` helper library against its specification.

The Python sources are shallowly embedded: floats are modelled as exact
rationals (`ℚ`), Python integers as `ℤ`, Python lists as `List`, and a
Python call that can raise maps to `Except PyError`.  Python's `%` on
integers agrees with Lean's `Int.emod` for positive moduli, and Python's
negative-index wrap-around `(ctr - 1) % length` is therefore modelled by
the same expression over `ℤ`.
-/

/-- Errors that the embedded Python code can raise.  `unknownPreset` and
`invalidSequence` are the error kinds named by the specification's
taxonomy; they are included so that statements about them can be made,
but (as proved below) the code never produces them. -/
inductive PyError where
  | indexError (msg : String)
  | valueError (msg : String)
  | zeroDivisionError
  | typeError
  | unknownPreset
  | invalidSequence
  deriving DecidableEq

/-! ## Color and label cyclers (`plotting.py` / `special.py` / `format.py`) -/

/-- The module constant `COLORS` of `setup.py` (also `special.py` line 14).
The second entry is the RGB tuple `(1, 0.5, 0)`, kept as its literal text
since color values are opaque to the cycling logic. -/
def COLORS : List String :=
  ["blue", "(1, 0.5, 0)", "green", "darkred", "cyan", "orangered", "purple", "lime"]

/-- The matplotlib `tab10` palette returned by `plt.get_cmap("tab10").colors`,
used by `Colors.__init__` when `colors == "default"`. -/
def TAB10 : List String :=
  ["#1f77b4", "#ff7f0e", "#2ca02c", "#d62728", "#9467bd",
   "#8c564b", "#e377c2", "#7f7f7f", "#bcbd22", "#17becf"]

/-- State of the `Colors` cycler (`plotting.py` lines 16-46).  The source
also stores `clength = len(colors)`; it is derived here as `colors.length`. -/
structure Colors where
  colors : List String
  ctr : ℤ
  deriving DecidableEq

/-- The `colors` argument of `Colors.__init__`: `None`, the string
`"default"`, or an explicit sequence. -/
inductive ColorsArg where
  | none
  | defaultCycle
  | seq (cs : List String)
  deriving DecidableEq

/-- `Colors.__init__` (`plotting.py` lines 26-35).  The constructor never
raises: it stores whatever sequence it is given, including an empty one. -/
def Colors.init (colors : ColorsArg) (ctr : ℤ) : Except PyError Colors :=
  .ok { colors :=
          match colors with
          | .none => COLORS
          | .defaultCycle => TAB10
          | .seq cs => cs,
        ctr := ctr }

/-- `Colors.get_color` (`plotting.py` lines 37-41): return
`colors[ctr % clength]` and increment `ctr` by `inc`.  Python raises
`ZeroDivisionError` on `ctr % 0`, i.e. when the stored sequence is empty. -/
def Colors.get_color (s : Colors) (inc : ℤ) : Except PyError (String × Colors) :=
  if s.colors.length = 0 then .error .zeroDivisionError
  else .ok (s.colors.getD (s.ctr % (s.colors.length : ℤ)).toNat "",
            ⟨s.colors, s.ctr + inc⟩)

/-- `Colors.prev_color` (`plotting.py` lines 43-46): return
`colors[(ctr - 1) % clength]` without changing the counter. -/
def Colors.prev_color (s : Colors) : Except PyError String :=
  if s.colors.length = 0 then .error .zeroDivisionError
  else .ok (s.colors.getD ((s.ctr - 1) % (s.colors.length : ℤ)).toNat "")

/-- `n` successive `get_color(inc=1)` calls, collecting the returned colors
and threading the cycler state. -/
def Colors.run_next (s : Colors) : ℕ → Except PyError (List String × Colors)
  | 0 => .ok ([], s)
  | n + 1 =>
    match s.get_color 1 with
    | .error e => .error e
    | .ok (v, s1) =>
      match s1.run_next n with
      | .error e => .error e
      | .ok (vs, s2) => .ok (v :: vs, s2)

/-- The default caption list of `AlphabeticalLabels.__init__`
(`format.py` lines 24-26). -/
def ABC_LABELS : List String :=
  ["(a)", "(b)", "(c)", "(d)", "(e)", "(f)", "(g)", "(h)", "(i)", "(j)", "(k)", "(l)"]

/-- State of the `AlphabeticalLabels` cycler (`format.py` lines 18-36). -/
structure AlphabeticalLabels where
  abc_labels : List String
  ctr : ℤ
  deriving DecidableEq

/-- `AlphabeticalLabels.__init__` (`format.py` lines 22-30): like
`Colors.__init__` it performs no validation and never raises. -/
def AlphabeticalLabels.init (abc_labels : Option (List String)) (ctr : ℤ) :
    Except PyError AlphabeticalLabels :=
  .ok ⟨abc_labels.getD ABC_LABELS, ctr⟩

/-- `AlphabeticalLabels.get_label` (`format.py` lines 32-36): return
`abc_labels[ctr % length]` and increment the counter by one. -/
def AlphabeticalLabels.get_label (s : AlphabeticalLabels) :
    Except PyError (String × AlphabeticalLabels) :=
  if s.abc_labels.length = 0 then .error .zeroDivisionError
  else .ok (s.abc_labels.getD (s.ctr % (s.abc_labels.length : ℤ)).toNat "",
            ⟨s.abc_labels, s.ctr + 1⟩)

/-! ## Figure sizing (`figsize.py`) -/

/-- `WIDTH_PT_SCR` (`figsize.py` line 13): default linewidth of a
scr-document, `418.25555` pt. -/
def WIDTH_PT_SCR : ℚ := 41825555 / 100000

/-- `WIDTH_PT_BMR` (`figsize.py` line 14): default linewidth of a
beamer-document, `302.0` pt. -/
def WIDTH_PT_BMR : ℚ := 302

/-- The `width` argument of `set_figsize`: a preset-name string or a
numeric point value (the `None` case is modelled by `Option`). -/
inductive FigWidth where
  | preset (s : String)
  | value (w : ℚ)
  deriving DecidableEq

/-- The preset dispatch of `set_figsize` (`figsize.py` lines 38-43):
`'thesis'` and `None` select `WIDTH_PT_SCR`, `'beamer'` selects
`WIDTH_PT_BMR`, and anything else is passed through unchanged as
`width_pt` (there is no validation branch). -/
def resolve_width_pt : Option FigWidth → FigWidth
  | Option.none => .value WIDTH_PT_SCR
  | some (.preset s) =>
      if s = "thesis" then .value WIDTH_PT_SCR
      else if s = "beamer" then .value WIDTH_PT_BMR
      else .preset s
  | some (.value w) => .value w

/-- The aesthetic ratio `golden_ratio = (5**0.5 - 1) / 2` of
`figsize.py` line 52. -/
noncomputable def goldenR : ℝ := (Real.sqrt 5 - 1) / 2

/-- `set_figsize` (`figsize.py` lines 18-59).
`fig_width_pt = width_pt * fraction`, `inches_per_pt = 1/72.27`,
`fig_width_in = fig_width_pt * inches_per_pt`,
`fig_height_in = fig_width_in * golden_ratio * (subplots[0]/subplots[1])`.
A string `width_pt` makes the width arithmetic raise `TypeError` in
Python, and `subplots[1] = 0` raises `ZeroDivisionError`. -/
noncomputable def set_figsize (width : Option FigWidth) (fraction : ℚ)
    (subplots : ℕ × ℕ) : Except PyError (ℝ × ℝ) :=
  match resolve_width_pt width with
  | .preset _ => .error .typeError
  | .value width_pt =>
    if subplots.2 = 0 then .error .zeroDivisionError
    else
      .ok (((width_pt * fraction * (100 / 7227) : ℚ) : ℝ),
           ((width_pt * fraction * (100 / 7227) : ℚ) : ℝ) * goldenR *
             ((subplots.1 : ℝ) / (subplots.2 : ℝ)))

/-- Height/width ratio of `set_figsize width fraction=1 subplots=(1,1)`
(0 on an error), the quantity the specification's testable property is
about. -/
noncomputable def figsize_ratio (width : Option FigWidth) : ℝ :=
  match set_figsize width 1 (1, 1) with
  | .ok (w, h) => h / w
  | .error _ => 0

/-! ## Tick formatter (`format.py` lines 367-426) -/

/-- The inner `gcd` helper of `multiple_formatter` (`format.py`
lines 377-380): `while b: a, b = b, a % b; return a`.  Python's `%`
agrees with `Int.emod` whenever the divisor is positive, which holds for
every iteration once the loop is entered with `b > 0`. -/
def pythonGcd (a b : ℤ) : ℤ :=
  if hb : b = 0 then a else pythonGcd b (a % b)
termination_by b.natAbs
decreasing_by
  have h1 : 0 ≤ a % b := Int.emod_nonneg a hb
  have h2 : a % b < |b| := Int.emod_lt a hb
  rw [Int.abs_eq_natAbs] at h2
  omega

/-- `np.rint` on an exact rational: round to nearest, ties to even. -/
def rintQ (q : ℚ) : ℤ :=
  if q - Rat.floor q < 1 / 2 then Rat.floor q
  else if (1 / 2 : ℚ) < q - Rat.floor q then Rat.floor q + 1
  else if Rat.floor q % 2 = 0 then Rat.floor q else Rat.floor q + 1

/-- `_multiple_formatter` (`format.py` lines 382-406), flattened over the
closure parameters of `multiple_formatter` (`denominator`, `number`,
`latex`); the unused matplotlib `pos` argument is dropped.
`num = int(np.rint(den * x / number))`, `com = gcd(num, den)`, the pair
is reduced by exact division, and one of the five patterns is rendered. -/
def multiple_formatter (denominator : ℤ) (number : ℚ) (latex : String)
    (x : ℚ) : String :=
  let num0 := rintQ (denominator * x / number)
  let com := pythonGcd num0 denominator
  let num := num0 / com
  let den := denominator / com
  if den = 1 then
    if num = 0 then "$0$"
    else if num = 1 then "$" ++ latex ++ "$"
    else if num = -1 then "$-" ++ latex ++ "$"
    else "$" ++ toString num ++ latex ++ "$"
  else
    if num = 1 then "$\\frac\x7b" ++ latex ++ "\x7d\x7b" ++ toString den ++ "\x7d$"
    else if num = -1 then "$-\\frac\x7b" ++ latex ++ "\x7d\x7b" ++ toString den ++ "\x7d$"
    else if 0 < num then
      "$\\frac\x7b" ++ toString num ++ latex ++ "\x7d\x7b" ++ toString den ++ "\x7d$"
    else
      "$-\\frac\x7b" ++ toString num.natAbs ++ latex ++ "\x7d\x7b" ++ toString den ++ "\x7d$"

/-- The numerator of the reduced fraction the specification describes:
`round(den_major * x / unit) / gcd`. -/
def reduced_num (den : ℤ) (u x : ℚ) : ℤ :=
  rintQ (den * x / u) / (Int.gcd (rintQ (den * x / u)) den : ℤ)

/-- The denominator of the reduced fraction the specification describes:
`den_major / gcd`. -/
def reduced_den (den : ℤ) (u x : ℚ) : ℤ :=
  den / (Int.gcd (rintQ (den * x / u)) den : ℤ)

/-- The specification's five textual patterns, instantiated at a reduced
fraction `num/den` (sign variants listed separately): `0`, `±unit`,
`±unit·num`, `±unit/den`, `±(num·unit)/den`. -/
def spec_five_patterns (num den : ℤ) (latex : String) : List String :=
  ["$0$",
   "$" ++ latex ++ "$",
   "$-" ++ latex ++ "$",
   "$" ++ toString num ++ latex ++ "$",
   "$\\frac\x7b" ++ latex ++ "\x7d\x7b" ++ toString den ++ "\x7d$",
   "$-\\frac\x7b" ++ latex ++ "\x7d\x7b" ++ toString den ++ "\x7d$",
   "$\\frac\x7b" ++ toString num ++ latex ++ "\x7d\x7b" ++ toString den ++ "\x7d$",
   "$-\\frac\x7b" ++ toString num.natAbs ++ latex ++ "\x7d\x7b" ++ toString den ++ "\x7d$"]

/-! ## Bounding-box annotation (`annotate.py` lines 42-69) -/

/-- The rectangle handed to `mpl.patches.Rectangle`: anchor `(x, y)` plus
width and height. -/
structure Rect where
  x : ℚ
  y : ℚ
  w : ℚ
  h : ℚ
  deriving DecidableEq

/-- `np.min` over a nonempty array, as a fold over head and tail. -/
def npMin (a : ℚ) (l : List ℚ) : ℚ := l.foldl min a

/-- `np.max` over a nonempty array, as a fold over head and tail. -/
def npMax (a : ℚ) (l : List ℚ) : ℚ := l.foldl max a

/-- `draw_bbox` (`annotate.py` lines 42-69).  Skips only when
`x.shape[0] == 1`; an empty array then reaches `np.min`, which raises
`ValueError`.  On a logarithmic axis the padding is
`xleft = xbuffer * xmin`, `xright = xmax * xleft / (xmin - xleft)`;
on a linear axis both paddings are the buffer itself.  Returns the
rectangle added to the axis, `none` for the skip. -/
def draw_bbox (x y : List ℚ) (xbuffer ybuffer : ℚ) (xlog ylog : Bool) :
    Except PyError (Option Rect) :=
  if x.length = 1 then .ok none
  else
    match x, y with
    | [], _ => .error (.valueError "zero-size array to reduction operation minimum")
    | _ :: _, [] => .error (.valueError "zero-size array to reduction operation minimum")
    | x0 :: xs, y0 :: ys =>
      let xmin := npMin x0 xs
      let xmax := npMax x0 xs
      let ymin := npMin y0 ys
      let ymax := npMax y0 ys
      let xleft := if xlog then xbuffer * xmin else xbuffer
      let xright := if xlog then xmax * (xbuffer * xmin) / (xmin - xbuffer * xmin) else xbuffer
      let ybottom := if ylog then ybuffer * ymin else ybuffer
      let ytop := if ylog then ymax * (ybuffer * ymin) / (ymin - ybuffer * ymin) else ybuffer
      .ok (some ⟨xmin - xleft, ymin - ybottom,
                 (xmax - xmin) + (xleft + xright), (ymax - ymin) + (ybottom + ytop)⟩)

/-! ## Label embedder (`format.py` lines 49-183) -/

/-- One rendered tick label: the tick's data coordinate (its entry in
`get_xticks`), the label text, and the window extent of the text in
device pixels. -/
structure TickLabel where
  pos : ℚ
  text : String
  x0 : ℚ
  x1 : ℚ
  y0 : ℚ
  y1 : ℚ
  deriving DecidableEq

instance : Inhabited TickLabel := ⟨⟨0, "", 0, 0, 0, 0⟩⟩

/-- An axis as the embedder reads it: window extent of the drawn box,
x-limits, the major+minor tick labels (matplotlib keeps one label per
tick, so ticks and labels are stored paired), and the configured title. -/
structure Axis where
  we_x0 : ℚ
  we_y0 : ℚ
  we_x1 : ℚ
  we_y1 : ℚ
  xlim0 : ℚ
  xlim1 : ℚ
  xticklabels : List TickLabel
  xlabel : String
  deriving DecidableEq

/-- Stable insertion of index `i` into an index list sorted by the key
list `l`: `i` goes after every index with a key `≤` its own. -/
def insertIdx (l : List ℚ) (i : ℕ) : List ℕ → List ℕ
  | [] => [i]
  | j :: js => if l.getD j 0 ≤ l.getD i 0 then j :: insertIdx l i js
               else i :: j :: js

/-- `np.argsort`, modelled as a stable insertion sort of indices by value
(NumPy's default quicksort differs from this only on the order of equal
keys). -/
def pyArgsort (l : List ℚ) : List ℕ :=
  (List.range l.length).foldl (fun acc i => insertIdx l i acc) []

/-- `np.isclose(a, b, atol=0)` with NumPy's default `rtol = 1e-5`:
`|a - b| <= rtol * |b|`. -/
def npIsClose (a b : ℚ) : Bool := |a - b| ≤ (1 / 100000) * |b|

/-- `ticks_in_limits` (`format.py` lines 49-56): concatenate major+minor
ticks, argsort them, and mark the sorted ticks lying inside the axis
limits (boundary-inclusive via `np.isclose` with `atol=0`).  Returns the
boolean mask over the sorted ticks together with the argsort
permutation. -/
def ticks_in_limits (ax : Axis) : List Bool × List ℕ :=
  let ticks := ax.xticklabels.map (·.pos)
  let argsort := pyArgsort ticks
  let sorted := argsort.map (fun i => ticks.getD i 0)
  (sorted.map (fun t =>
      ((decide (ax.xlim0 ≤ t) && decide (t ≤ ax.xlim1)) ||
       npIsClose t ax.xlim0 || npIsClose t ax.xlim1)),
   argsort)

/-- `np.argmax` of a boolean mask: index of the first `True`, `0` when
every entry is `False`. -/
def npArgmaxBool (l : List Bool) : ℕ := (l.findIdx? (· = true)).getD 0

/-- `_embed_label` (`format.py` lines 106-140) for `which='x'`.
Sorts the tick labels along the axis, clears the mask on empty-text
labels, filters by the mask, and then handles the degenerate cases: with
a configured title and no surviving label it raises `IndexError`; with a
title and fewer than two survivors it takes the slice
`ticklabels[only_indx : only_indx+2]` of the *already filtered* array,
where `only_indx = np.argmax(indx)` indexes into the unfiltered mask.
Returns the surviving labels and `[ax0, ay0, width, height]`. -/
def embed_label_sub (ax : Axis) : Except PyError (List TickLabel × (ℚ × ℚ × ℚ × ℚ)) :=
  let ax0 := ax.we_x0
  let ay0 := ax.we_y0
  let width := ax.we_x1 - ax.we_x0
  let height := ax.we_y1 - ax.we_y0
  let indxArgsort := ticks_in_limits ax
  let sortedLabels := indxArgsort.2.filterMap (fun i => ax.xticklabels.get? i)
  let indx := (indxArgsort.1.zip sortedLabels).map
      (fun bt => bt.1 && !(bt.2.text == ""))
  let ticklabels :=
    if sortedLabels.length = indx.length then
      (sortedLabels.zip indx).filterMap (fun tb => if tb.2 then some tb.1 else none)
    else sortedLabels
  if ticklabels.length < 1 ∧ ax.xlabel ≠ "" then
    .error (.indexError "Length of ticklabels below 1, can not embed label!")
  else
    let ticklabels :=
      if ticklabels.length < 2 ∧ ax.xlabel ≠ "" then
        ((ticklabels.drop (npArgmaxBool indx)).take 2)
      else ticklabels
    .ok (ticklabels, (ax0, ay0, width, height))

/-- `_points_to_pixels` (`format.py` lines 86-88):
`points * dpi / 72`, with the dpi taken from the rc configuration. -/
def points_to_pixels (dpi points : ℚ) : ℚ := points * dpi / 72

/-- Python's `max(iterable, key=f)`: first element with the maximal key
(ties keep the earliest).  Total with a default for the empty list, which
the callers never pass. -/
def pyMaxBy (l : List TickLabel) (f : TickLabel → ℚ) : TickLabel :=
  match l with
  | [] => default
  | h :: t => t.foldl (fun acc u => if f acc < f u then u else acc) h

/-- The outcome of a successful `embed_xlabel`: the relative label
coordinates written by `set_label_coords`, and the relative y-coordinate
of the optional caption text. -/
structure EmbedResult where
  xpos : ℚ
  ypos : ℚ
  caption_ypos : Option ℚ
  deriving DecidableEq

/-- `embed_xlabel` (`format.py` lines 143-183).  After `_embed_label`,
fewer than two tick labels mean an early silent return (`none`).
Otherwise the anchor is the midpoint of the last label's left edge and
the second-to-last label's right edge; the vertical offset band is
`tick_height = ay0 - points_to_pixels(xtick.major.pad) - max_tick.y0`
measured from the tallest label, with the three `align` placements
(anything else raises `ValueError`); both are converted to axis-relative
coordinates. -/
def embed_xlabel (ax : Axis) (align : String) (caption : Option String)
    (dpi xtick_major_pad : ℚ) : Except PyError (Option EmbedResult) :=
  match embed_label_sub ax with
  | .error e => .error e
  | .ok (ticklabels, (ax0, ay0, width, height)) =>
    if ticklabels.length < 2 then .ok none
    else
      let last_tick := ticklabels.getD (ticklabels.length - 1) default
      let sec_tick := ticklabels.getD (ticklabels.length - 2) default
      let xpos := (last_tick.x0 + sec_tick.x1) / 2
      let max_tick := pyMaxBy ticklabels (fun t => t.y1 - t.y0)
      let tick_height := ay0 - points_to_pixels dpi xtick_major_pad - max_tick.y0
      let yposE : Except PyError ℚ :=
        if align = "bottom" then .ok (max_tick.y0 - tick_height / 2)
        else if align = "center" then .ok max_tick.y0
        else if align = "top" then .ok (max_tick.y0 + tick_height / 2)
        else .error (.valueError
          ("Vertical x-alignment should have been one of ['top', 'center', 'bottom'], but was "
            ++ align ++ "!"))
      match yposE with
      | .error e => .error e
      | .ok ypos =>
        .ok (some ⟨(xpos - ax0) / width, (ypos - ay0) / height,
                   caption.map (fun _ => (max_tick.y0 - tick_height - ay0) / height)⟩)

/-- The left (or bottom) edge of the padded rectangle that `draw_bbox`
produces on a logarithmic axis: `min - buffer * min`. -/
def bbox_edge_lo (a : ℚ) (l : List ℚ) (b : ℚ) : ℚ :=
  npMin a l - b * npMin a l

/-- The right (or top) edge of the padded rectangle that `draw_bbox`
produces on a logarithmic axis:
`max + max * (buffer * min) / (min - buffer * min)`. -/
def bbox_edge_hi (a : ℚ) (l : List ℚ) (b : ℚ) : ℚ :=
  npMax a l + npMax a l * (b * npMin a l) / (npMin a l - b * npMin a l)

/-! ## Concrete axes for evaluating the embedder's degenerate cases -/

/-- A tick at data coordinate 0 labelled `"0"`. -/
def tick0 : TickLabel := ⟨0, "0", 10, 18, 5, 15⟩

/-- A tick at data coordinate 5 labelled `"5"`. -/
def tick5 : TickLabel := ⟨5, "5", 48, 56, 5, 15⟩

/-- A tick at data coordinate 10 labelled `"10"`. -/
def tick10 : TickLabel := ⟨10, "10", 90, 98, 5, 15⟩

/-- Titled axis whose x-limits `(4, 6)` leave exactly one visible tick
label (the one at 5, sorted index 1). -/
def axis_one_label : Axis := ⟨0, 20, 100, 80, 4, 6, [tick0, tick5, tick10], "x"⟩

/-- Titled axis whose x-limits `(-1, 1)` leave exactly one visible tick
label (the one at 0, sorted index 0). -/
def axis_first_label : Axis := ⟨0, 20, 100, 80, -1, 1, [tick0, tick5, tick10], "x"⟩

/-- Titled axis whose x-limits `(20, 30)` leave no visible tick label. -/
def axis_zero_labels : Axis := ⟨0, 20, 100, 80, 20, 30, [tick0, tick5, tick10], "x"⟩

/-- Axis with no configured title and one visible tick label. -/
def axis_no_title : Axis := ⟨0, 20, 100, 80, 4, 6, [tick0, tick5, tick10], ""⟩

/-! ## Helper lemmas -/

theorem emod_toNat_lt (c : ℤ) (L : ℕ) (hL : L ≠ 0) : (c % (L : ℤ)).toNat < L := by
  have hp : (0 : ℤ) < (L : ℤ) := by exact_mod_cast Nat.pos_of_ne_zero hL
  have h1 := Int.emod_lt_of_pos c hp
  have h2 := Int.emod_nonneg c (by omega : (L : ℤ) ≠ 0)
  omega

theorem neg_one_emod_toNat (L : ℕ) (hL : L ≠ 0) : ((-1) % (L : ℤ)).toNat = L - 1 := by
  have hp : (0 : ℤ) < (L : ℤ) := by exact_mod_cast Nat.pos_of_ne_zero hL
  have h3 : ((L : ℤ) - 1 + (L : ℤ) * (-1)) % (L : ℤ) = ((L : ℤ) - 1) % (L : ℤ) :=
    Int.add_mul_emod_self_left ((L : ℤ) - 1) (L : ℤ) (-1)
  have h4 : (L : ℤ) - 1 + (L : ℤ) * (-1) = -1 := by ring
  have h5 : ((L : ℤ) - 1) % (L : ℤ) = (L : ℤ) - 1 := Int.emod_eq_of_lt (by omega) (by omega)
  rw [h4, h5] at h3
  omega

theorem Colors.run_next_formula (cs : List String) (h : cs ≠ []) :
    ∀ (n : ℕ) (c : ℤ),
      Colors.run_next ⟨cs, c⟩ n =
        .ok ((List.range n).map
              (fun (k : ℕ) => cs.getD ((c + (k : ℤ)) % (cs.length : ℤ)).toNat ""),
             ⟨cs, c + (n : ℤ)⟩) := by
  intro n
  induction n with
  | zero => intro c; simp [Colors.run_next]
  | succ n ih =>
    intro c
    have hlen : cs.length ≠ 0 := by simpa [List.length_eq_zero] using h
    simp only [Colors.run_next, Colors.get_color, if_neg hlen, ih]
    rw [List.range_succ_eq_map, List.map_cons, List.map_map]
    have hmap :
        List.map (fun (k : ℕ) => cs.getD ((c + 1 + (k : ℤ)) % (cs.length : ℤ)).toNat "")
            (List.range n) =
          List.map ((fun (k : ℕ) => cs.getD ((c + (k : ℤ)) % (cs.length : ℤ)).toNat "")
            ∘ Nat.succ) (List.range n) := by
      refine List.map_congr_left ?_
      intro k _
      simp only [Function.comp_apply]
      congr 2
      push_cast
      ring
    rw [hmap]
    congr 2
    · norm_num
    · push_cast
      ring

/-! ## C5: `next()` returns `sequence[counter % length]`, advances, wraps -/

/-- C5: for every non-empty sequence and counter, `get_color` returns
`colors[ctr % length]` and advances the counter by the given increment,
leaving the sequence unmutated; the modulo index is always in range, `n`
default calls from a fresh cycler return `colors[k % length]` for
`k = 0, …, n-1`, and with the 8-color default palette the 1st and the 9th
call both return element 0 (`"blue"`). -/
theorem get_color_spec (cs : List String) (c inc : ℤ) (n : ℕ) (h : cs ≠ []) :
    Colors.get_color ⟨cs, c⟩ inc =
        .ok (cs.getD (c % (cs.length : ℤ)).toNat "", ⟨cs, c + inc⟩) ∧
      (c % (cs.length : ℤ)).toNat < cs.length ∧
      Colors.run_next ⟨cs, 0⟩ n =
        .ok ((List.range n).map
              (fun (k : ℕ) => cs.getD ((k : ℤ) % (cs.length : ℤ)).toNat ""),
             ⟨cs, (n : ℤ)⟩) ∧
      Colors.run_next ⟨COLORS, 0⟩ 9 =
        .ok (["blue", "(1, 0.5, 0)", "green", "darkred", "cyan", "orangered",
              "purple", "lime", "blue"],
             ⟨COLORS, 9⟩) := by
  have hlen : cs.length ≠ 0 := by simpa [List.length_eq_zero] using h
  refine ⟨by simp [Colors.get_color, hlen], emod_toNat_lt c _ hlen, ?_, by rfl⟩
  have hf := Colors.run_next_formula cs h n 0
  simpa using hf

/-- Witness for C5 at `cs = ["r", "g", "b"]`, `c = 5`, `inc = 2`, `n = 4`. -/
theorem get_color_spec_witness :
    (["r", "g", "b"] : List String) ≠ [] ∧
      (Colors.get_color ⟨["r", "g", "b"], 5⟩ 2 =
          .ok ((["r", "g", "b"] : List String).getD
                ((5 : ℤ) % ((["r", "g", "b"] : List String).length : ℤ)).toNat "",
               ⟨["r", "g", "b"], 5 + 2⟩) ∧
        ((5 : ℤ) % ((["r", "g", "b"] : List String).length : ℤ)).toNat <
          (["r", "g", "b"] : List String).length ∧
        Colors.run_next ⟨["r", "g", "b"], 0⟩ 4 =
          .ok ((List.range 4).map
                (fun (k : ℕ) => (["r", "g", "b"] : List String).getD
                  ((k : ℤ) % ((["r", "g", "b"] : List String).length : ℤ)).toNat ""),
               ⟨["r", "g", "b"], (4 : ℤ)⟩) ∧
        Colors.run_next ⟨COLORS, 0⟩ 9 =
          .ok (["blue", "(1, 0.5, 0)", "green", "darkred", "cyan", "orangered",
                "purple", "lime", "blue"],
               ⟨COLORS, 9⟩)) :=
  ⟨by decide, get_color_spec ["r", "g", "b"] 5 2 4 (by decide)⟩

/-! ## C4: what `previous()` actually returns -/

/-- C4 counterexample: with increment 2, `prev_color` does not return the
value of the most recent `get_color` call — after `next(2)` on
`["blue", "green"]` returned `"blue"`, `prev_color` returns `"green"`. -/
theorem prev_color_increment_two_cex :
    Colors.get_color ⟨["blue", "green"], 0⟩ 2 =
        .ok ("blue", ⟨["blue", "green"], 2⟩) ∧
      Colors.prev_color ⟨["blue", "green"], 2⟩ = .ok "green" ∧
      ("green" : String) ≠ "blue" :=
  ⟨rfl, rfl, by decide⟩

/-- C4 amended: `prev_color` returns the element at index
`(counter - 1) % length`; this equals the value of the most recent
`next` call when that call used the default increment 1 — in particular
after `n ≥ 1` default calls from a fresh cycler it returns the `n`-th
returned element. -/
theorem prev_color_spec (cs : List String) (c : ℤ) (n : ℕ) (h : cs ≠ [])
    (hn : 1 ≤ n) :
    Colors.prev_color ⟨cs, c⟩ =
        .ok (cs.getD ((c - 1) % (cs.length : ℤ)).toNat "") ∧
      Colors.get_color ⟨cs, c⟩ 1 =
        .ok (cs.getD (c % (cs.length : ℤ)).toNat "", ⟨cs, c + 1⟩) ∧
      Colors.prev_color ⟨cs, c + 1⟩ =
        .ok (cs.getD (c % (cs.length : ℤ)).toNat "") ∧
      Colors.run_next ⟨cs, 0⟩ n =
        .ok ((List.range n).map
              (fun (k : ℕ) => cs.getD ((k : ℤ) % (cs.length : ℤ)).toNat ""),
             ⟨cs, (n : ℤ)⟩) ∧
      Colors.prev_color ⟨cs, (n : ℤ)⟩ =
        .ok (cs.getD (((n : ℤ) - 1) % (cs.length : ℤ)).toNat "") ∧
      ((List.range n).map
          (fun (k : ℕ) => cs.getD ((k : ℤ) % (cs.length : ℤ)).toNat "")).getD (n - 1) "" =
        cs.getD (((n : ℤ) - 1) % (cs.length : ℤ)).toNat "" := by
  have hlen : cs.length ≠ 0 := by simpa [List.length_eq_zero] using h
  refine ⟨by simp [Colors.prev_color, hlen], by simp [Colors.get_color, hlen],
          by simp [Colors.prev_color, hlen], ?_, by simp [Colors.prev_color, hlen], ?_⟩
  · have hf := Colors.run_next_formula cs h n 0
    simpa using hf
  · rw [List.getD_eq_getElem?_getD, List.getElem?_map,
        List.getElem?_range (by omega : n - 1 < n)]
    simp only [Option.map_some', Option.getD_some]
    congr 2
    push_cast [Nat.cast_sub hn]
    ring

/-- Witness for C4's amended theorem at `cs = ["x", "y", "z"]`, `c = 4`,
`n = 2`. -/
theorem prev_color_spec_witness :
    (["x", "y", "z"] : List String) ≠ [] ∧ (1 : ℕ) ≤ 2 ∧
      (Colors.prev_color ⟨["x", "y", "z"], 4⟩ =
          .ok ((["x", "y", "z"] : List String).getD
                (((4 : ℤ) - 1) % ((["x", "y", "z"] : List String).length : ℤ)).toNat "") ∧
        Colors.get_color ⟨["x", "y", "z"], 4⟩ 1 =
          .ok ((["x", "y", "z"] : List String).getD
                ((4 : ℤ) % ((["x", "y", "z"] : List String).length : ℤ)).toNat "",
               ⟨["x", "y", "z"], 4 + 1⟩) ∧
        Colors.prev_color ⟨["x", "y", "z"], 4 + 1⟩ =
          .ok ((["x", "y", "z"] : List String).getD
                ((4 : ℤ) % ((["x", "y", "z"] : List String).length : ℤ)).toNat "") ∧
        Colors.run_next ⟨["x", "y", "z"], 0⟩ 2 =
          .ok ((List.range 2).map
                (fun (k : ℕ) => (["x", "y", "z"] : List String).getD
                  ((k : ℤ) % ((["x", "y", "z"] : List String).length : ℤ)).toNat ""),
               ⟨["x", "y", "z"], (2 : ℤ)⟩) ∧
        Colors.prev_color ⟨["x", "y", "z"], ((2 : ℕ) : ℤ)⟩ =
          .ok ((["x", "y", "z"] : List String).getD
                ((((2 : ℕ) : ℤ) - 1) % ((["x", "y", "z"] : List String).length : ℤ)).toNat "") ∧
        ((List.range 2).map
            (fun (k : ℕ) => (["x", "y", "z"] : List String).getD
              ((k : ℤ) % ((["x", "y", "z"] : List String).length : ℤ)).toNat "")).getD
            (2 - 1) "" =
          (["x", "y", "z"] : List String).getD
            ((((2 : ℕ) : ℤ) - 1) % ((["x", "y", "z"] : List String).length : ℤ)).toNat "") :=
  ⟨by decide, by decide, prev_color_spec ["x", "y", "z"] 4 2 (by decide) (by decide)⟩

/-! ## C10: `previous()` on a fresh cycler -/

/-- C10: on a freshly constructed cycler (counter 0) over a non-empty
sequence of length `L`, `prev_color` does not fail and returns the final
element, index `L - 1`, by Python's negative-index wrap
`(0 - 1) % L = L - 1`. -/
theorem prev_color_fresh (cs : List String) (h : cs ≠ []) :
    Colors.prev_color ⟨cs, 0⟩ = .ok (cs.getD (cs.length - 1) "") := by
  have hlen : cs.length ≠ 0 := by simpa [List.length_eq_zero] using h
  simp [Colors.prev_color, hlen, neg_one_emod_toNat cs.length hlen]

/-- Witness for C10 at `cs = ["a", "b", "c"]`. -/
theorem prev_color_fresh_witness :
    (["a", "b", "c"] : List String) ≠ [] ∧
      Colors.prev_color ⟨["a", "b", "c"], 0⟩ =
        .ok ((["a", "b", "c"] : List String).getD
              ((["a", "b", "c"] : List String).length - 1) "") :=
  ⟨by decide, prev_color_fresh ["a", "b", "c"] (by decide)⟩

/-! ## C8: construction-time validation of the cyclers -/

/-- C8 counterexample: constructing a cycler with an explicit empty
sequence succeeds (no `InvalidSequence` is raised at construction time);
the failure happens only at the first `get_color`/`get_label`, as a
modulo-by-zero error. -/
theorem cycler_init_no_validation_cex :
    Colors.init (.seq []) 0 = .ok ⟨[], 0⟩ ∧
      AlphabeticalLabels.init (some []) 0 = .ok ⟨[], 0⟩ ∧
      Colors.get_color ⟨[], 0⟩ 1 = .error .zeroDivisionError ∧
      AlphabeticalLabels.get_label ⟨[], 0⟩ = .error .zeroDivisionError :=
  ⟨rfl, rfl, rfl, rfl⟩

/-- C8 amended: the cycler constructors perform no validation and always
succeed, empty sequences included; every operation is well-defined (and
its modulo index in range) whenever the stored sequence is non-empty;
with an empty sequence the operations fail with Python's
modulo-by-zero error rather than `InvalidSequence`. -/
theorem cycler_init_spec (arg : ColorsArg) (ls : Option (List String))
    (cs2 cs : List String) (c inc : ℤ) (h : cs ≠ []) :
    (Colors.init arg c).isOk = true ∧
      (AlphabeticalLabels.init ls c).isOk = true ∧
      Colors.init (.seq cs2) c = .ok ⟨cs2, c⟩ ∧
      (Colors.get_color ⟨cs, c⟩ inc).isOk = true ∧
      (Colors.prev_color ⟨cs, c⟩).isOk = true ∧
      (AlphabeticalLabels.get_label ⟨cs, c⟩).isOk = true ∧
      (c % (cs.length : ℤ)).toNat < cs.length ∧
      Colors.get_color ⟨[], c⟩ inc = .error .zeroDivisionError := by
  have hlen : cs.length ≠ 0 := by simpa [List.length_eq_zero] using h
  exact ⟨by simp [Colors.init, Except.isOk, Except.toBool],
         by simp [AlphabeticalLabels.init, Except.isOk, Except.toBool],
         by simp [Colors.init],
         by simp [Colors.get_color, hlen, Except.isOk, Except.toBool],
         by simp [Colors.prev_color, hlen, Except.isOk, Except.toBool],
         by simp [AlphabeticalLabels.get_label, hlen, Except.isOk, Except.toBool],
         emod_toNat_lt c _ hlen,
         by simp [Colors.get_color]⟩

/-- Witness for C8's amended theorem at `arg = defaultCycle`,
`ls = some ["(i)"]`, `cs2 = []`, `cs = ["u"]`, `c = -3`, `inc = 0`. -/
theorem cycler_init_spec_witness :
    (["u"] : List String) ≠ [] ∧
      ((Colors.init .defaultCycle (-3)).isOk = true ∧
        (AlphabeticalLabels.init (some ["(i)"]) (-3)).isOk = true ∧
        Colors.init (.seq []) (-3) = .ok ⟨[], -3⟩ ∧
        (Colors.get_color ⟨["u"], -3⟩ 0).isOk = true ∧
        (Colors.prev_color ⟨["u"], -3⟩).isOk = true ∧
        (AlphabeticalLabels.get_label ⟨["u"], -3⟩).isOk = true ∧
        ((-3 : ℤ) % ((["u"] : List String).length : ℤ)).toNat <
          (["u"] : List String).length ∧
        Colors.get_color ⟨[], -3⟩ 0 = .error .zeroDivisionError) :=
  ⟨by decide, cycler_init_spec .defaultCycle (some ["(i)"]) [] ["u"] (-3) 0 (by decide)⟩

/-! ## C3: the size-calculator formula -/

/-- C3: for every numeric width, fraction and subplot grid (with a
non-degenerate column count), `set_figsize` returns
`width_in = width_pt * fraction / 72.27` and
`height_in = width_in * ((sqrt 5 - 1)/2) * (rows/cols)`; for `(1, 1)`
subplots the height/width ratio equals the golden ratio for every
preset, and both dimensions scale linearly in `fraction`. -/
theorem set_figsize_spec (w f : ℚ) (r c : ℕ) (hc : c ≠ 0) :
    set_figsize (some (.value w)) f (r, c) =
        .ok ((w : ℝ) * (f : ℝ) / 72.27,
             (w : ℝ) * (f : ℝ) / 72.27 * goldenR * ((r : ℝ) / (c : ℝ))) ∧
      figsize_ratio Option.none = goldenR ∧
      figsize_ratio (some (.preset "thesis")) = goldenR ∧
      figsize_ratio (some (.preset "beamer")) = goldenR ∧
      set_figsize (some (.value w)) f (r, c) =
        (set_figsize (some (.value w)) 1 (r, c)).map
          (fun p => ((f : ℝ) * p.1, (f : ℝ) * p.2)) := by
  have hw : ∀ q : ℚ, ((q * f * (100 / 7227) : ℚ) : ℝ) = (q : ℝ) * (f : ℝ) / 72.27 := by
    intro q
    push_cast
    norm_num
    ring
  refine ⟨?_, ?_, ?_, ?_, ?_⟩
  · simp only [set_figsize, resolve_width_pt, if_neg hc]
    rw [hw w]
  · have hX : ((WIDTH_PT_SCR : ℝ)) * (100 / 7227) ≠ 0 := by norm_num [WIDTH_PT_SCR]
    simp only [figsize_ratio, set_figsize, resolve_width_pt]
    norm_num
    exact mul_div_cancel_left₀ goldenR hX
  · have hX : ((WIDTH_PT_SCR : ℝ)) * (100 / 7227) ≠ 0 := by norm_num [WIDTH_PT_SCR]
    simp only [figsize_ratio, set_figsize, resolve_width_pt, if_pos rfl]
    norm_num
    exact mul_div_cancel_left₀ goldenR hX
  · have hX : ((WIDTH_PT_BMR : ℝ)) * (100 / 7227) ≠ 0 := by norm_num [WIDTH_PT_BMR]
    simp only [figsize_ratio, set_figsize, resolve_width_pt]
    norm_num
    exact mul_div_cancel_left₀ goldenR hX
  · simp only [set_figsize, resolve_width_pt, if_neg hc, Except.map,
               Except.ok.injEq, Prod.mk.injEq]
    constructor
    · push_cast
      ring
    · push_cast
      ring

/-- Witness for C3 at `w = 100`, `f = 1/2`, `subplots = (2, 1)`. -/
theorem set_figsize_spec_witness :
    (1 : ℕ) ≠ 0 ∧
      (set_figsize (some (.value 100)) (1 / 2) (2, 1) =
          .ok (((100 : ℚ) : ℝ) * ((1 / 2 : ℚ) : ℝ) / 72.27,
               ((100 : ℚ) : ℝ) * ((1 / 2 : ℚ) : ℝ) / 72.27 * goldenR *
                 (((2 : ℕ) : ℝ) / ((1 : ℕ) : ℝ))) ∧
        figsize_ratio Option.none = goldenR ∧
        figsize_ratio (some (.preset "thesis")) = goldenR ∧
        figsize_ratio (some (.preset "beamer")) = goldenR ∧
        set_figsize (some (.value 100)) (1 / 2) (2, 1) =
          (set_figsize (some (.value 100)) 1 (2, 1)).map
            (fun p => (((1 / 2 : ℚ) : ℝ) * p.1, ((1 / 2 : ℚ) : ℝ) * p.2))) :=
  ⟨by decide, set_figsize_spec 100 (1 / 2) 2 1 (by decide)⟩

/-! ## C7: unknown presets are not rejected -/

/-- C7 counterexample: the string `"a4paper"` is not a defined preset,
yet `set_figsize` does not fail with `UnknownPreset`: the dispatch passes
the string through as `width_pt` and the width arithmetic then raises
`TypeError`. -/
theorem set_figsize_unknown_preset_cex :
    set_figsize (some (.preset "a4paper")) 1 (1, 1) = .error .typeError ∧
      PyError.typeError ≠ PyError.unknownPreset ∧
      resolve_width_pt (some (.preset "a4paper")) = .preset "a4paper" :=
  ⟨rfl, by decide, rfl⟩

/-- C7 amended: for every string that is not `'thesis'` or `'beamer'`,
`set_figsize` performs no preset validation: the string is passed through
unchanged as `width_pt`, and the call fails with Python's `TypeError`
from the width arithmetic, not with an `UnknownPreset` error. -/
theorem set_figsize_unknown_preset_spec (s : String) (f : ℚ) (sub : ℕ × ℕ)
    (h1 : s ≠ "thesis") (h2 : s ≠ "beamer") :
    resolve_width_pt (some (.preset s)) = .preset s ∧
      set_figsize (some (.preset s)) f sub = .error .typeError := by
  constructor
  · simp only [resolve_width_pt, if_neg h1, if_neg h2]
  · simp only [set_figsize, resolve_width_pt, if_neg h1, if_neg h2]

/-- Witness for C7's amended theorem at `s = "a4paper"`, `f = 2/3`,
`sub = (3, 2)`. -/
theorem set_figsize_unknown_preset_spec_witness :
    ("a4paper" : String) ≠ "thesis" ∧ ("a4paper" : String) ≠ "beamer" ∧
      (resolve_width_pt (some (.preset "a4paper")) = .preset "a4paper" ∧
        set_figsize (some (.preset "a4paper")) (2 / 3) (3, 2) = .error .typeError) :=
  ⟨by decide, by decide,
   set_figsize_unknown_preset_spec "a4paper" (2 / 3) (3, 2) (by decide) (by decide)⟩

/-! ## Helper lemmas for the formatter -/

theorem ratFloor_eq_intFloor (q : ℚ) : Rat.floor q = ⌊q⌋ :=
  (Rat.floor_def' q).trans Rat.floor_def.symm

theorem rintQ_intCast (n : ℤ) : rintQ ((n : ℤ) : ℚ) = n := by
  have hf : Rat.floor ((n : ℤ) : ℚ) = n := by
    rw [ratFloor_eq_intFloor]
    exact Int.floor_intCast n
  simp [rintQ, hf]

theorem int_gcd_emod (a b : ℤ) : Int.gcd b (a % b) = Int.gcd b a := by
  have hmod : a % b = a - b * (a / b) := Int.emod_def a b
  apply Nat.dvd_antisymm
  · have h1 : ((Int.gcd b (a % b) : ℕ) : ℤ) ∣ b := Int.gcd_dvd_left
    have h2 : ((Int.gcd b (a % b) : ℕ) : ℤ) ∣ a % b := Int.gcd_dvd_right
    have h3 : ((Int.gcd b (a % b) : ℕ) : ℤ) ∣ a := by
      have h4 : a % b + b * (a / b) = a := by rw [hmod]; ring
      have h5 : ((Int.gcd b (a % b) : ℕ) : ℤ) ∣ a % b + b * (a / b) :=
        dvd_add h2 (h1.mul_right _)
      rwa [h4] at h5
    exact Int.natCast_dvd_natCast.mp (Int.dvd_gcd h1 h3)
  · have h1 : ((Int.gcd b a : ℕ) : ℤ) ∣ b := Int.gcd_dvd_left
    have h2 : ((Int.gcd b a : ℕ) : ℤ) ∣ a := Int.gcd_dvd_right
    have h3 : ((Int.gcd b a : ℕ) : ℤ) ∣ a % b := by
      rw [hmod]
      exact dvd_sub h2 (h1.mul_right _)
    exact Int.natCast_dvd_natCast.mp (Int.dvd_gcd h1 h3)

theorem pythonGcd_nonneg_eq (n : ℕ) : ∀ (a b : ℤ), 0 ≤ a → 0 ≤ b →
    b.natAbs ≤ n → pythonGcd a b = ((Int.gcd a b : ℕ) : ℤ) := by
  induction n with
  | zero =>
    intro a b ha hb hn
    have hb0 : b = 0 := by omega
    subst hb0
    rw [pythonGcd]
    simp [Int.gcd_zero_right, Int.natAbs_of_nonneg ha]
  | succ n ih =>
    intro a b ha hb hn
    by_cases hb0 : b = 0
    · subst hb0
      rw [pythonGcd]
      simp [Int.gcd_zero_right, Int.natAbs_of_nonneg ha]
    · have hbpos : 0 < b := by omega
      rw [pythonGcd, dif_neg hb0]
      have h1 : 0 ≤ a % b := Int.emod_nonneg a hb0
      have h2 : a % b < b := Int.emod_lt_of_pos a hbpos
      have h3 : (a % b).natAbs ≤ n := by omega
      rw [ih b (a % b) hb h1 h3, int_gcd_emod, Int.gcd_comm]

theorem pythonGcd_eq (a b : ℤ) (hb : 0 < b) :
    pythonGcd a b = ((Int.gcd a b : ℕ) : ℤ) := by
  rw [pythonGcd, dif_neg (by omega : b ≠ 0)]
  have h1 : 0 ≤ a % b := Int.emod_nonneg a (by omega)
  rw [pythonGcd_nonneg_eq (a % b).natAbs b (a % b) (by omega) h1 (le_refl _),
      int_gcd_emod, Int.gcd_comm]

/-! ## C2: the five-pattern tick formatter -/

/-- C2: for every tick value, nonzero unit and major denominator `≥ 1`,
the code's gcd loop computes the gcd, the rendered fraction is the
reduced form of `round(den * x / unit)` over `den` (same ratio, coprime,
positive denominator), the output is one of the specification's five
textual patterns instantiated at that reduced fraction, and with
`major_den = 2`, unit `π`: `π ↦ "$\pi$"` (the unit symbol alone),
`0 ↦ "$0$"`, `π/2 ↦` the symbol for unit/2. -/
theorem multiple_formatter_spec (den : ℤ) (u x : ℚ) (latex : String)
    (hden : 1 ≤ den) (hu : u ≠ 0) :
    pythonGcd (rintQ ((den : ℚ) * x / u)) den =
        ((Int.gcd (rintQ ((den : ℚ) * x / u)) den : ℕ) : ℤ) ∧
      1 ≤ reduced_den den u x ∧
      Int.gcd (reduced_num den u x) (reduced_den den u x) = 1 ∧
      reduced_num den u x * den = rintQ ((den : ℚ) * x / u) * reduced_den den u x ∧
      multiple_formatter den u latex x ∈
        spec_five_patterns (reduced_num den u x) (reduced_den den u x) latex ∧
      multiple_formatter 2 u "\\pi" u = "$\\pi$" ∧
      multiple_formatter 2 u "\\pi" 0 = "$0$" ∧
      multiple_formatter 2 u "\\pi" (u / 2) = "$\\frac\x7b\\pi\x7d\x7b2\x7d$" := by
  have hdpos : (0 : ℤ) < den := by omega
  simp only [reduced_num, reduced_den]
  set n0 := rintQ ((den : ℚ) * x / u)
  have hgpos : 0 < Int.gcd n0 den := Int.gcd_pos_of_ne_zero_right n0 (by omega)
  have hgz2 : (0 : ℤ) < ((Int.gcd n0 den : ℕ) : ℤ) := by exact_mod_cast hgpos
  have hgz : ((Int.gcd n0 den : ℕ) : ℤ) ≠ 0 := by omega
  have hcom : pythonGcd n0 den = ((Int.gcd n0 den : ℕ) : ℤ) := pythonGcd_eq n0 den hdpos
  obtain ⟨a1, ha1⟩ := (Int.gcd_dvd_left : ((Int.gcd n0 den : ℕ) : ℤ) ∣ n0)
  obtain ⟨b1, hb1⟩ := (Int.gcd_dvd_right : ((Int.gcd n0 den : ℕ) : ℤ) ∣ den)
  have hnum : n0 / ((Int.gcd n0 den : ℕ) : ℤ) = a1 := by
    nth_rewrite 1 [ha1]
    exact Int.mul_ediv_cancel_left a1 hgz
  have hden2 : den / ((Int.gcd n0 den : ℕ) : ℤ) = b1 := by
    nth_rewrite 1 [hb1]
    exact Int.mul_ediv_cancel_left b1 hgz
  have hb1pos : 1 ≤ b1 := by
    by_contra hcon
    push_neg at hcon
    have h6 : ((Int.gcd n0 den : ℕ) : ℤ) * b1 ≤ 0 :=
      mul_nonpos_iff.mpr (Or.inl ⟨hgz2.le, by omega⟩)
    rw [hb1] at hden
    linarith
  have hf1 : ((2 : ℤ) : ℚ) * u / u = ((2 : ℤ) : ℚ) := by
    rw [mul_div_assoc, div_self hu, mul_one]
  have hf2 : pythonGcd 2 2 = 2 := by
    rw [pythonGcd_eq 2 2 (by norm_num)]
    decide
  have hg1 : ((2 : ℤ) : ℚ) * 0 / u = ((0 : ℤ) : ℚ) := by norm_num
  have hg2 : pythonGcd 0 2 = 2 := by
    rw [pythonGcd_eq 0 2 (by norm_num)]
    decide
  have hh1 : ((2 : ℤ) : ℚ) * (u / 2) / u = ((1 : ℤ) : ℚ) := by
    push_cast
    field_simp
  have hh2 : pythonGcd 1 2 = 1 := by
    rw [pythonGcd_eq 1 2 (by norm_num)]
    decide
  refine ⟨hcom, ?_, ?_, ?_, ?_, ?_, ?_, ?_⟩
  · rw [hden2]
    exact hb1pos
  · exact Int.gcd_div_gcd_div_gcd hgpos
  · rw [hnum, hden2]
    conv_rhs => rw [ha1]
    conv_lhs => rw [hb1]
    ring
  · simp only [multiple_formatter, hcom]
    split_ifs <;> simp [spec_five_patterns]
  · simp only [multiple_formatter, hf1, rintQ_intCast, hf2]
    norm_num
    decide
  · simp only [multiple_formatter, hg1, rintQ_intCast, hg2]
    norm_num
  · simp only [multiple_formatter, hh1, rintQ_intCast, hh2]
    norm_num
    decide

/-- Witness for C2 at `den = 2`, `u = 1`, `x = 5/3`, `latex = "q"`. -/
theorem multiple_formatter_spec_witness :
    (1 : ℤ) ≤ 2 ∧ (1 : ℚ) ≠ 0 ∧
      (pythonGcd (rintQ (((2 : ℤ) : ℚ) * (5 / 3) / 1)) 2 =
          ((Int.gcd (rintQ (((2 : ℤ) : ℚ) * (5 / 3) / 1)) 2 : ℕ) : ℤ) ∧
        1 ≤ reduced_den 2 1 (5 / 3) ∧
        Int.gcd (reduced_num 2 1 (5 / 3)) (reduced_den 2 1 (5 / 3)) = 1 ∧
        reduced_num 2 1 (5 / 3) * 2 =
          rintQ (((2 : ℤ) : ℚ) * (5 / 3) / 1) * reduced_den 2 1 (5 / 3) ∧
        multiple_formatter 2 1 "q" (5 / 3) ∈
          spec_five_patterns (reduced_num 2 1 (5 / 3)) (reduced_den 2 1 (5 / 3)) "q" ∧
        multiple_formatter 2 1 "\\pi" 1 = "$\\pi$" ∧
        multiple_formatter 2 1 "\\pi" 0 = "$0$" ∧
        multiple_formatter 2 1 "\\pi" ((1 : ℚ) / 2) = "$\\frac\x7b\\pi\x7d\x7b2\x7d$") :=
  ⟨by norm_num, by norm_num,
   multiple_formatter_spec 2 1 (5 / 3) "q" (by norm_num) (by norm_num)⟩

/-! ## Helper lemmas for `draw_bbox` -/

theorem foldl_min_le_foldl_max (l : List ℚ) :
    ∀ a c : ℚ, a ≤ c → l.foldl min a ≤ l.foldl max c := by
  induction l with
  | nil => intro a c h; simpa using h
  | cons x t ih =>
    intro a c h
    exact ih (min a x) (max c x)
      ((min_le_left a x).trans (h.trans (le_max_left c x)))

theorem npMin_le_npMax (a : ℚ) (l : List ℚ) : npMin a l ≤ npMax a l :=
  foldl_min_le_foldl_max l a a le_rfl

theorem log_pad_symmetry (m M bb : ℝ) (hm : 0 < m) (hM : 0 < M)
    (hb0 : 0 < bb) (hb1 : bb < 1) :
    Real.log (M + M * (bb * m) / (m - bb * m)) - Real.log M =
      Real.log m - Real.log (m - bb * m) := by
  have h1b : (0 : ℝ) < 1 - bb := by linarith
  have hlo : m - bb * m = m * (1 - bb) := by ring
  have hhi : M + M * (bb * m) / (m - bb * m) = M / (1 - bb) := by
    rw [hlo]
    field_simp
    ring
  rw [hhi, hlo, Real.log_div hM.ne' h1b.ne', Real.log_mul hm.ne' h1b.ne']
  ring

theorem bbox_edges_spec (a : ℚ) (l : List ℚ) (bb : ℚ)
    (hm : 0 < npMin a l) (hb0 : 0 < bb) (hb1 : bb < 1) :
    bbox_edge_lo a l bb * bbox_edge_hi a l bb = npMin a l * npMax a l ∧
      Real.log ((bbox_edge_hi a l bb : ℚ) : ℝ) - Real.log ((npMax a l : ℚ) : ℝ) =
        Real.log ((npMin a l : ℚ) : ℝ) - Real.log ((bbox_edge_lo a l bb : ℚ) : ℝ) := by
  have hM : 0 < npMax a l := lt_of_lt_of_le hm (npMin_le_npMax a l)
  have hne : npMin a l - bb * npMin a l ≠ 0 := by
    have h : npMin a l - bb * npMin a l = npMin a l * (1 - bb) := by ring
    rw [h]
    exact (mul_pos hm (by linarith)).ne'
  constructor
  · simp only [bbox_edge_lo, bbox_edge_hi]
    field_simp
    ring
  · have hcast1 : ((bbox_edge_hi a l bb : ℚ) : ℝ) =
        ((npMax a l : ℚ) : ℝ) + ((npMax a l : ℚ) : ℝ) *
          ((bb : ℝ) * ((npMin a l : ℚ) : ℝ)) /
          (((npMin a l : ℚ) : ℝ) - (bb : ℝ) * ((npMin a l : ℚ) : ℝ)) := by
      simp only [bbox_edge_hi]
      push_cast
      ring
    have hcast2 : ((bbox_edge_lo a l bb : ℚ) : ℝ) =
        ((npMin a l : ℚ) : ℝ) - (bb : ℝ) * ((npMin a l : ℚ) : ℝ) := by
      simp only [bbox_edge_lo]
      push_cast
      ring
    rw [hcast1, hcast2]
    exact log_pad_symmetry _ _ _ (by exact_mod_cast hm) (by exact_mod_cast hM)
      (by exact_mod_cast hb0) (by exact_mod_cast hb1)

/-! ## C6: log-symmetric padding of `draw_bbox` -/

/-- C6: on logarithmic axes with positive data and a buffer in `(0, 1)`,
`draw_bbox` pads with `xleft = xbuffer * xmin` and
`xright = xmax * xleft / (xmin - xleft)`, and the rectangle's edges
`x1 = xmin - xleft`, `x2 = xmax + xright` satisfy the exact log-symmetry
identity `log x2 - log xmax = log xmin - log x1` (equivalently
`x1 * x2 = xmin * xmax`), and analogously on the y-axis. -/
theorem draw_bbox_log_symmetry (x0 y0q : ℚ) (xs ys : List ℚ) (b yb : ℚ)
    (hxs : xs ≠ []) (hb0 : 0 < b) (hb1 : b < 1) (hyb0 : 0 < yb) (hyb1 : yb < 1)
    (hxmin : 0 < npMin x0 xs) (hymin : 0 < npMin y0q ys) :
    draw_bbox (x0 :: xs) (y0q :: ys) b yb true true =
        .ok (some ⟨bbox_edge_lo x0 xs b, bbox_edge_lo y0q ys yb,
                   bbox_edge_hi x0 xs b - bbox_edge_lo x0 xs b,
                   bbox_edge_hi y0q ys yb - bbox_edge_lo y0q ys yb⟩) ∧
      bbox_edge_lo x0 xs b * bbox_edge_hi x0 xs b = npMin x0 xs * npMax x0 xs ∧
      Real.log ((bbox_edge_hi x0 xs b : ℚ) : ℝ) - Real.log ((npMax x0 xs : ℚ) : ℝ) =
        Real.log ((npMin x0 xs : ℚ) : ℝ) - Real.log ((bbox_edge_lo x0 xs b : ℚ) : ℝ) ∧
      bbox_edge_lo y0q ys yb * bbox_edge_hi y0q ys yb = npMin y0q ys * npMax y0q ys ∧
      Real.log ((bbox_edge_hi y0q ys yb : ℚ) : ℝ) - Real.log ((npMax y0q ys : ℚ) : ℝ) =
        Real.log ((npMin y0q ys : ℚ) : ℝ) - Real.log ((bbox_edge_lo y0q ys yb : ℚ) : ℝ) := by
  obtain ⟨hx2, hx3⟩ := bbox_edges_spec x0 xs b hxmin hb0 hb1
  obtain ⟨hy2, hy3⟩ := bbox_edges_spec y0q ys yb hymin hyb0 hyb1
  refine ⟨?_, hx2, hx3, hy2, hy3⟩
  have hlen0 : xs.length ≠ 0 := by simpa [List.length_eq_zero] using hxs
  have hlen : ¬((x0 :: xs).length = 1) := by
    simp only [List.length_cons]
    omega
  simp only [draw_bbox, if_neg hlen]
  simp only [if_true, Except.ok.injEq, Option.some.injEq, Rect.mk.injEq]
  refine ⟨?_, ?_, ?_, ?_⟩ <;> simp only [bbox_edge_lo, bbox_edge_hi] <;> ring

/-- Witness for C6 at points spanning `[1, 100]` on both axes with
buffers `1/100` and `1/20`. -/
theorem draw_bbox_log_symmetry_witness :
    ([100] : List ℚ) ≠ [] ∧ (0 : ℚ) < 1 / 100 ∧ (1 / 100 : ℚ) < 1 ∧
      (0 : ℚ) < 1 / 20 ∧ (1 / 20 : ℚ) < 1 ∧
      0 < npMin 1 [100] ∧ 0 < npMin 1 [100] ∧
      (draw_bbox (1 :: [100]) (1 :: [100]) (1 / 100) (1 / 20) true true =
          .ok (some ⟨bbox_edge_lo 1 [100] (1 / 100), bbox_edge_lo 1 [100] (1 / 20),
                     bbox_edge_hi 1 [100] (1 / 100) - bbox_edge_lo 1 [100] (1 / 100),
                     bbox_edge_hi 1 [100] (1 / 20) - bbox_edge_lo 1 [100] (1 / 20)⟩) ∧
        bbox_edge_lo 1 [100] (1 / 100) * bbox_edge_hi 1 [100] (1 / 100) =
          npMin 1 [100] * npMax 1 [100] ∧
        Real.log ((bbox_edge_hi 1 [100] (1 / 100) : ℚ) : ℝ) -
            Real.log ((npMax 1 [100] : ℚ) : ℝ) =
          Real.log ((npMin 1 [100] : ℚ) : ℝ) -
            Real.log ((bbox_edge_lo 1 [100] (1 / 100) : ℚ) : ℝ) ∧
        bbox_edge_lo 1 [100] (1 / 20) * bbox_edge_hi 1 [100] (1 / 20) =
          npMin 1 [100] * npMax 1 [100] ∧
        Real.log ((bbox_edge_hi 1 [100] (1 / 20) : ℚ) : ℝ) -
            Real.log ((npMax 1 [100] : ℚ) : ℝ) =
          Real.log ((npMin 1 [100] : ℚ) : ℝ) -
            Real.log ((bbox_edge_lo 1 [100] (1 / 20) : ℚ) : ℝ)) :=
  ⟨by decide, by norm_num, by norm_num, by norm_num, by norm_num,
   by norm_num [npMin], by norm_num [npMin],
   draw_bbox_log_symmetry 1 1 [100] [100] (1 / 100) (1 / 20) (by decide)
     (by norm_num) (by norm_num) (by norm_num) (by norm_num)
     (by norm_num [npMin]) (by norm_num [npMin])⟩

/-! ## C9: the skip condition of `draw_bbox` -/

/-- C9 counterexample: with zero points `draw_bbox` is not skipped — the
`x.shape[0] == 1` guard does not cover the empty cloud, so `np.min` of an
empty array raises `ValueError` instead of returning without error. -/
theorem draw_bbox_empty_cex :
    draw_bbox [] [] (1 / 100) (1 / 20) false false =
      .error (.valueError "zero-size array to reduction operation minimum") := rfl

/-- C9 amended: `draw_bbox` returns without drawing and without error for
a point cloud of exactly one point (the skip happens before any `np.min`,
so even an empty `y` does not matter); for an empty point cloud the
reduction over the empty array fails with `ValueError`. -/
theorem draw_bbox_skip_spec (x y : List ℚ) (b yb : ℚ) (xl yl : Bool)
    (h : x.length = 1) :
    draw_bbox x y b yb xl yl = .ok none ∧
      draw_bbox [] y b yb xl yl =
        .error (.valueError "zero-size array to reduction operation minimum") := by
  constructor
  · rw [draw_bbox.eq_def, if_pos h]
  · rfl

/-- Witness for C9's amended theorem at `x = [5]`, `y = []`. -/
theorem draw_bbox_skip_spec_witness :
    ([(5 : ℚ)] : List ℚ).length = 1 ∧
      (draw_bbox [(5 : ℚ)] [] (1 / 100) (1 / 20) true false = .ok none ∧
        draw_bbox [] [] (1 / 100) (1 / 20) true false =
          .error (.valueError "zero-size array to reduction operation minimum")) :=
  ⟨by decide, draw_bbox_skip_spec [(5 : ℚ)] [] (1 / 100) (1 / 20) true false (by decide)⟩

/-! ## C1: degenerate cases of the label embedder -/

/-- C1: evaluation of `embed_xlabel` on the degenerate cases.  An axis
with no title is a silent no-op; a titled axis with zero surviving tick
labels raises the `IndexError` (the specification's
`InsufficientTickLabels`); but a titled axis with exactly one surviving
label does NOT proceed with a synthesized 2-label window: the slice
`ticklabels[only_indx : only_indx+2]` is taken from the already filtered
array, leaves at most one label (none at all when the survivor's sorted
index is positive), and the call silently no-ops. -/
theorem embed_xlabel_degenerate_eval :
    embed_xlabel axis_no_title "top" Option.none 100 (7 / 2) = .ok none ∧
      embed_xlabel axis_zero_labels "top" Option.none 100 (7 / 2) =
        .error (.indexError "Length of ticklabels below 1, can not embed label!") ∧
      embed_xlabel axis_one_label "top" Option.none 100 (7 / 2) = .ok none ∧
      embed_xlabel axis_first_label "top" Option.none 100 (7 / 2) = .ok none := by
  refine ⟨?_, ?_, ?_, ?_⟩ <;>
    norm_num [embed_xlabel, embed_label_sub, ticks_in_limits, pyArgsort, insertIdx,
      npIsClose, npArgmaxBool, axis_no_title, axis_zero_labels, axis_one_label,
      axis_first_label, tick0, tick5, tick10, List.range_succ, List.filterMap_cons,
      (by decide : ¬(("5" : String) = "")), (by decide : ¬(("0" : String) = "")),
      (by decide : ¬(("10" : String) = "")), (by decide : ¬(("x" : String) = ""))]
